import Mathlib

/-!
Verification of the Budget Enforcement Engine of the bedrock-budgeteer
repository, via a shallow embedding of its core logic.

Conventions of the embedding:
* Monetary amounts and token counts are embedded as rationals (`ℚ`),
  modelling the decimal arithmetic of the source exactly.
* Timestamps are embedded as `Int` epoch seconds; a day is 86400 seconds
  (the source's `timedelta(days=n)`).
* A DynamoDB budget record is the structure `BudgetRecord`; a table is an
  association list keyed by principal id.
* Each DynamoDB `update_item` / conditional `put_item` call is one atomic
  step, per the storage layer's contract; stateful code is explicit state
  passing over these structures.
-/

namespace BedrockBudgeteer

/-! ## Cost calculator (`shared/pricing_calculator.py`) -/

/-- Embeds `BedrockPricingCalculator.calculate_cost_with_cache`
(pricing_calculator.py lines 307-332), with the resolved pricing
`(rateIn, rateOut)` = `(input_tokens_per_1000, output_tokens_per_1000)`
passed as a parameter. -/
def calculate_cost_with_cache (rateIn rateOut : ℚ)
    (input_tokens output_tokens cache_creation_tokens cache_read_tokens : ℕ) : ℚ :=
  let input_cost := ((input_tokens : ℚ) / 1000) * rateIn
  let output_cost := ((output_tokens : ℚ) / 1000) * rateOut
  let cache_creation_cost := ((cache_creation_tokens : ℚ) / 1000) * rateIn
  let cache_read_cost := ((cache_read_tokens : ℚ) / 1000) * (rateIn * 0.1)
  input_cost + output_cost + cache_creation_cost + cache_read_cost

/-! ## Fallback pricing (`BedrockPricingCalculator._get_fallback_pricing`) -/

/-- Holds when the first list is a leading segment of the second. -/
def startsWithChars : List Char → List Char → Bool
  | [], _ => true
  | _ :: _, [] => false
  | a :: as, b :: bs => a = b && startsWithChars as bs

/-- Holds when `needle` occurs contiguously inside `hay` (Python's
`needle in hay` on strings). -/
def containsSub (hay needle : List Char) : Bool :=
  match hay with
  | [] => needle.isEmpty
  | _ :: t => startsWithChars needle hay || containsSub t needle

/-- Python's `key in model_id` substring test. -/
def strContains (hay needle : String) : Bool :=
  containsSub hay.toList needle.toList

/-- The static `model_pricing` dict of `_get_fallback_pricing`
(pricing_calculator.py lines 198-276), in its source (insertion) order;
each entry is `(key, (input_tokens_per_1000, output_tokens_per_1000))`. -/
def model_pricing : List (String × ℚ × ℚ) :=
  [ ("anthropic.claude-3-opus-20240229-v1:0", 15/1000, 75/1000)
  , ("anthropic.claude-3-sonnet-20240229-v1:0", 3/1000, 15/1000)
  , ("anthropic.claude-3-haiku-20240307-v1:0", 25/100000, 125/100000)
  , ("anthropic.claude-3-5-sonnet-20240620-v1:0", 3/1000, 15/1000)
  , ("anthropic.claude-3-5-sonnet-20241022-v2:0", 3/1000, 15/1000)
  , ("anthropic.claude-3-5-haiku-20241022-v1:0", 1/1000, 5/1000)
  , ("anthropic.claude-opus-4-20250115-v1:0", 15/1000, 75/1000)
  , ("anthropic.claude-opus-4-1-20250115-v1:0", 15/1000, 75/1000)
  , ("anthropic.claude-sonnet-4-20250115-v1:0", 3/1000, 15/1000)
  , ("anthropic.claude-sonnet-4-long-context-20250115-v1:0", 6/1000, 225/10000)
  , ("claude-sonnet-4-20250514", 3/1000, 15/1000)
  , ("us.anthropic.claude-3-5-sonnet-20241022-v2:0", 3/1000, 15/1000)
  , ("us.anthropic.claude-sonnet-4-20250115-v1:0", 3/1000, 15/1000)
  , ("us.anthropic.claude-opus-4-20250115-v1:0", 15/1000, 75/1000)
  , ("us.anthropic.claude-opus-4-1-20250115-v1:0", 15/1000, 75/1000)
  , ("us.anthropic.claude-sonnet-4-long-context-20250115-v1:0", 6/1000, 225/10000) ]

/-- The default rates `{0.003, 0.015}` returned when no table key matches. -/
def default_fallback : ℚ × ℚ := (3/1000, 15/1000)

/-- Embeds `_get_fallback_pricing` (pricing_calculator.py lines 278-291):
the loop `for key in model_pricing.keys(): if key in model_id: model_key =
key; break` takes the FIRST key, in the dict's insertion order, that is a
substring of `model_id`; an unmatched `model_id` keeps `model_key =
model_id`, which is not a dict key, so `.get` yields the default. -/
def get_fallback_pricing (model_id : String) : ℚ × ℚ :=
  match model_pricing.find? (fun kv => strContains model_id kv.1) with
  | some kv => kv.2
  | none => default_fallback

/-- Modelled from the spec's words (for comparison with
`get_fallback_pricing`): the rates of the LONGEST table key that is a
substring of the model id, else the default rates. -/
def longest_match_fallback_pricing (model_id : String) : ℚ × ℚ :=
  let matching := model_pricing.filter (fun kv => strContains model_id kv.1)
  match matching.foldl
      (fun best kv =>
        match best with
        | none => some kv
        | some b => if kv.1.length > b.1.length then some kv else some b)
      none with
  | some kv => kv.2
  | none => default_fallback

/-! ## Ledger data model (`user_budgets` DynamoDB table) -/

/-- A `user_budgets` record, with the attributes the engine reads and
writes. Field names follow the DynamoDB attribute names. Attributes the
source may leave absent (`grace_deadline_epoch`, `suspension_timestamp`,
the restoration bookkeeping) are `Option`s; `REMOVE` sets them to
`none`. -/
structure BudgetRecord where
  principal_id : String
  account_type : String
  status : String
  threshold_state : String
  budget_limit_usd : ℚ
  spent_usd : ℚ
  grace_deadline_epoch : Option Int
  budget_period_start : Int
  budget_refresh_date : Int
  refresh_period_days : Int
  refresh_count : Int
  last_updated_epoch : Int
  suspension_timestamp : Option Int
  restoration_status : Option String
  restoration_start_epoch : Option Int
  restoration_timestamp : Option Int
  last_restoration_timestamp : Option Int
  model_spend_breakdown : List (String × ℚ)
deriving Repr, DecidableEq

/-- Seconds in a day: the source's `timedelta(days=n)` over epoch
seconds. -/
def secondsPerDay : Int := 86400

/-! ## Atomic spend accrual (`usage_calculator.py update_user_budget`) -/

/-- The update `model_spend_breakdown.#model_id = if_not_exists(...,
:zero) + :cost` on the spend-breakdown map. -/
def bump_model_spend (model_id : String) (cost : ℚ) :
    List (String × ℚ) → List (String × ℚ)
  | [] => [(model_id, cost)]
  | (m, v) :: rest =>
    if m = model_id then (m, v + cost) :: rest
    else (m, v) :: bump_model_spend model_id cost rest

/-- The single atomic `update_item` of `update_user_budget`
(usage_calculator.py lines 415-427): one storage-layer step that adds
`cost` to `spent_usd` and to the model's breakdown entry and stamps
`last_updated_epoch`; it never reads-then-writes from application code. -/
def accrue_spend (model_id : String) (cost : ℚ) (now : Int)
    (r : BudgetRecord) : BudgetRecord :=
  { r with
    spent_usd := r.spent_usd + cost
    model_spend_breakdown := bump_model_spend model_id cost r.model_spend_breakdown
    last_updated_epoch := now }

/-- A sequence of accrual steps for one principal: each list element is a
`(model_id, cost)` call; an interleaving of N concurrent callers is some
order of their N atomic steps. -/
def run_accruals (now : Int) (calls : List (String × ℚ)) (r : BudgetRecord) :
    BudgetRecord :=
  calls.foldl (fun acc c => accrue_spend c.1 c.2 now acc) r

/-! ## First-use provisioning (`create_basic_budget_record` and the
retry structure of `update_user_budget`) -/

/-- The table, as an association list keyed by `principal_id`. -/
abbrev Table := List (String × BudgetRecord)

/-- DynamoDB `get_item` on the budgets table. -/
def table_get (t : Table) (p : String) : Option BudgetRecord :=
  match List.find? (fun kv => kv.1 = p) t with
  | some kv => some kv.2
  | none => none

/-- DynamoDB `put_item` (unconditional write used after the
`attribute_not_exists` condition passed). -/
def table_put (t : Table) (p : String) (r : BudgetRecord) : Table :=
  (p, r) :: List.filter (fun kv => ¬ (kv.1 = p)) t

/-- The fresh record built by `create_basic_budget_record`
(usage_calculator.py lines 502-521): default budget limit, the accruing
cost as the initial spend, status `active`. -/
def basic_budget_record (p model_id : String) (initial_cost : ℚ)
    (default_budget : ℚ) (refresh_period_days : Int) (now : Int) :
    BudgetRecord :=
  { principal_id := p
    account_type := "bedrock_api_key"
    status := "active"
    threshold_state := "normal"
    budget_limit_usd := default_budget
    spent_usd := initial_cost
    grace_deadline_epoch := none
    budget_period_start := now
    budget_refresh_date := now + refresh_period_days * secondsPerDay
    refresh_period_days := refresh_period_days
    refresh_count := 0
    last_updated_epoch := now
    suspension_timestamp := none
    restoration_status := none
    restoration_start_epoch := none
    restoration_timestamp := none
    last_restoration_timestamp := none
    model_spend_breakdown := [(model_id, initial_cost)] }

/-- Outcome of one `update_user_budget` call for the caller: either a
write went through (with the new table), or the caught-and-re-raised
update error propagated with no write by this caller. -/
inductive AccrueOutcome
  | updated (t : Table)
  | created (t : Table)
  | raisedUpdateError (t : Table)
deriving Repr, DecidableEq

/-- Embeds the add-or-create structure of `update_user_budget`
(usage_calculator.py lines 412-438). `t1` is the table state observed by
the atomic `update_item` (which fails when the item is absent, since the
update expression addresses the document path
`model_spend_breakdown.#model_id`); `t2` is the state observed by
`create_basic_budget_record`'s conditional put (a concurrent creator may
have won the race in between). A failed conditional put is caught and the
ORIGINAL update error is re-raised (`raise update_error`); the accrual is
not retried. -/
def update_user_budget (p model_id : String) (cost : ℚ)
    (default_budget : ℚ) (refresh_period_days : Int) (now : Int)
    (t1 t2 : Table) : AccrueOutcome :=
  match table_get t1 p with
  | some r => .updated (table_put t1 p (accrue_spend model_id cost now r))
  | none =>
    match table_get t2 p with
    | none =>
      .created (table_put t2 p
        (basic_budget_record p model_id cost default_budget refresh_period_days now))
    | some _ => .raisedUpdateError t2

/-! ## ThresholdMonitor (`core_processing.py` budget_monitor lambda) -/

/-- Embeds `ConfigurationManager.get_parameter` (configuration_manager.py
lines 21-41): the configured SSM value when the lookup succeeds, else the
caller-supplied default. -/
def get_parameter {α : Type} (configured : Option α) (default_value : α) : α :=
  configured.getD default_value

/-- The ledger write of `start_grace_period` (core_processing.py lines
285-293): `SET grace_deadline_epoch = :deadline, #status = :status`. -/
def start_grace_period_update (grace_deadline : Int) (r : BudgetRecord) :
    BudgetRecord :=
  { r with grace_deadline_epoch := some grace_deadline, status := "grace_period" }

/-- What the monitor run does to one scanned item besides the ledger
write. -/
inductive MonitorAction
  | noAction
  | graceStarted
  | suspensionTriggered (reason : String)
deriving Repr, DecidableEq

/-- Embeds the per-item body of the budget_monitor `lambda_handler`
(core_processing.py lines 188-239) together with `start_grace_period`
(lines 272-321, success path): skip suspended/restricted/unmanaged
records; at `ratio ≥ 100%` either escalate an expired grace period,
leave a running one alone, or start one with
`deadline = now + get_parameter(grace_period_seconds, 60)`. -/
def monitor_process_item (now : Int) (configured_grace : Option Int)
    (r : BudgetRecord) : BudgetRecord × MonitorAction :=
  if r.status = "suspended" ∨ r.status = "restricted" ∨ r.budget_limit_usd = 0 then
    (r, .noAction)
  else if r.spent_usd / r.budget_limit_usd * 100 ≥ 100 then
    match r.grace_deadline_epoch with
    | some deadline =>
      if now ≥ deadline then (r, .suspensionTriggered "grace_period_expired")
      else (r, .noAction)
    | none =>
      let grace_period_seconds := get_parameter configured_grace 60
      (start_grace_period_update (now + grace_period_seconds) r, .graceStarted)
  else (r, .noAction)

/-- The steps of `start_grace_period`'s `try` block that can raise into
the `except` handler, in source order: the configuration lookup and the
ledger `update_item`. The later event and metric publications cannot
appear here: `EventPublisher.publish_budget_event` and
`MetricsPublisher.publish_budget_metric` wrap their work in their own
`try/except` that only logs (event_publisher.py lines 22-35,
metrics_publisher.py lines 22-41, and the copies inlined into the
monitor lambda), so a failure there is swallowed and never reaches
`start_grace_period`'s handler. -/
inductive GraceSetupStep
  | configLookup
  | ledgerUpdate
deriving Repr, DecidableEq

/-- Embeds `start_grace_period` (core_processing.py lines 272-321) with
an injected failure point: a raise at step `s` keeps the effects of the
steps before `s` and lands in the `except` handler, which calls
`trigger_suspension_workflow(principal_id, budget_item,
"grace_period_setup_failed")`. Both steps that can raise precede the
ledger write's completion, so a failure always leaves the record as it
was; on the no-failure path the swallowed-error publications leave the
record exactly as the ledger update wrote it. Returns the record as left
in the ledger and the reason of the suspension-workflow trigger, if one
was emitted. -/
def start_grace_period_run (now : Int) (configured_grace : Option Int)
    (failAt : Option GraceSetupStep) (r : BudgetRecord) :
    BudgetRecord × Option String :=
  match failAt with
  | some .configLookup => (r, some "grace_period_setup_failed")
  | some .ledgerUpdate => (r, some "grace_period_setup_failed")
  | none =>
    let grace_period_seconds := get_parameter configured_grace 60
    (start_grace_period_update (now + grace_period_seconds) r, none)

/-! ## RefreshSweep (`core_processing.py` budget_refresh lambda) -/

/-- The in-place reset of an Active account performed by the
budget_refresh `lambda_handler` (core_processing.py lines 430-449):
`SET spent_usd = :zero, budget_period_start = :period_start,
budget_refresh_date = :next_refresh, refresh_count = refresh_count +
:one` with `:period_start = now` and
`:next_refresh = now + timedelta(days=refresh_period_days)`. -/
def budget_refresh_reset (now : Int) (r : BudgetRecord) : BudgetRecord :=
  { r with
    spent_usd := 0
    budget_period_start := now
    budget_refresh_date := now + r.refresh_period_days * secondsPerDay
    refresh_count := r.refresh_count + 1 }

/-- What the refresh sweep does to one scanned item besides the ledger
write. -/
inductive RefreshAction
  | noAction
  | restorationTriggered (principal : String)
deriving Repr, DecidableEq

/-- Embeds the per-item body of the budget_refresh `lambda_handler`
(core_processing.py lines 395-449): past the refresh date, a `suspended`
record emits a restoration trigger and an `active` record is reset in
place; every other status falls through both branches untouched. -/
def budget_refresh_process_item (now : Int) (r : BudgetRecord) :
    BudgetRecord × RefreshAction :=
  if now ≥ r.budget_refresh_date then
    if r.status = "suspended" then (r, .restorationTriggered r.principal_id)
    else if r.status = "active" then (budget_refresh_reset now r, .noAction)
    else (r, .noAction)
  else (r, .noAction)

/-! ## SuspensionWorkflow (`workflows/suspension_workflow.py`) -/

/-- The states of the suspension state machine, named after the Step
Functions states built in `create_suspension_workflow`. -/
inductive SuspensionState
  | sendGraceNotification
  | gracePeriodWait
  | sendFinalWarning
  | applyFullSuspension
  | updateUserStatus
  | suspensionSuccess
  | suspensionFailed
deriving Repr, DecidableEq

/-- The transition structure of `create_suspension_workflow`
(suspension_workflow.py lines 95-108): the `.next` chain
SendGraceNotification → GracePeriodWait → SendFinalWarning →
ApplyFullSuspension → UpdateUserStatus → SuspensionSuccess, and the
single catch (`add_error_handling`, States.ALL) that routes a failing
ApplyFullSuspension to the terminal SuspensionFailed `Fail` state.
`revokeFails` says whether the ApplyFullSuspension task raises. -/
def suspension_next (revokeFails : Bool) :
    SuspensionState → Option SuspensionState
  | .sendGraceNotification => some .gracePeriodWait
  | .gracePeriodWait => some .sendFinalWarning
  | .sendFinalWarning => some .applyFullSuspension
  | .applyFullSuspension =>
    some (if revokeFails then .suspensionFailed else .updateUserStatus)
  | .updateUserStatus => some .suspensionSuccess
  | .suspensionSuccess => none
  | .suspensionFailed => none

/-- States visited from `s`, following `suspension_next` for at most
`fuel` steps. -/
def suspension_trace_from (revokeFails : Bool) :
    Nat → SuspensionState → List SuspensionState
  | 0, s => [s]
  | fuel + 1, s =>
    s :: (match suspension_next revokeFails s with
          | none => []
          | some s' => suspension_trace_from revokeFails fuel s')

/-- The full execution trace of one suspension workflow run (the machine
has at most 7 states, so fuel 10 is exhaustive). -/
def suspension_trace (revokeFails : Bool) : List SuspensionState :=
  suspension_trace_from revokeFails 10 .sendGraceNotification

/-- The execution input of the suspension state machine, as assembled by
the EventBridge target (workflow_orchestration.py lines 386-392) from
the triggering event's detail. -/
structure SuspensionInput where
  principal_id : String
  account_type : String
  grace_period_seconds : Int
deriving Repr, DecidableEq

/-- The GracePeriodWait state's duration (suspension_workflow.py lines
33-36): `WaitTime.seconds_path("$.grace_period_seconds")`, i.e. read from
the execution input. `configured_at_execution` is whatever the grace
configuration holds when the wait runs; the state cannot see it. -/
def grace_wait_seconds (input : SuspensionInput)
    (_configured_at_execution : Option Int) : Int :=
  input.grace_period_seconds

/-- The `UpdateUserStatus` DynamoDB task (suspension_workflow.py lines
63-80): an unconditional `SET #status = :status, suspension_timestamp =
:timestamp` with `:status = "suspended"` and `:timestamp` the state's
entry time. -/
def update_user_status_suspended (entered_time : Int) (r : BudgetRecord) :
    BudgetRecord :=
  { r with status := "suspended", suspension_timestamp := some entered_time }

/-! ## RestorationWorkflow (`workflows/restoration_workflow.py` and
`workflow_lambda_functions/restoration_validation.py`) -/

/-- The result object of `validate_automatic_restoration_request`
(restoration_validation.py lines 62-131), restricted to the fields the
workflow reads. -/
structure ValidationResult where
  is_valid : Bool
  next_refresh_date : Option Int
deriving Repr, DecidableEq

/-- Embeds `validate_automatic_restoration_request`: valid iff the record
exists, its status is `suspended`, and `now ≥ budget_refresh_date`; on
success `next_refresh_date = now + timedelta(days=refresh_period_days)`. -/
def validate_automatic_restoration_request (now : Int)
    (record : Option BudgetRecord) : ValidationResult :=
  match record with
  | none => ⟨false, none⟩
  | some r =>
    if r.status ≠ "suspended" then ⟨false, none⟩
    else if now ≥ r.budget_refresh_date then
      ⟨true, some (now + r.refresh_period_days * secondsPerDay)⟩
    else ⟨false, none⟩

/-- The `update_restoration_status` write performed by the validation
lambda when validation passes (restoration_validation.py lines 135-147). -/
def update_restoration_status (now : Int) (r : BudgetRecord) : BudgetRecord :=
  { r with
    restoration_status := some "automatic_restoration_in_progress"
    restoration_start_epoch := some now }

/-- The `ResetBudgetStatus` DynamoDB task of the restoration workflow
(restoration_workflow.py lines 60-85): `SET #status = "active",
spent_usd = 0, threshold_state = "normal", restoration_timestamp =
:timestamp, last_restoration_timestamp = :timestamp,
budget_period_start = :period_start, budget_refresh_date =
:next_refresh REMOVE restoration_status, restoration_start_epoch`,
where `:timestamp = :period_start` is the state's entry time and
`:next_refresh` comes from the validation payload. -/
def reset_budget_status (entered_time : Int) (next_refresh_date : Int)
    (r : BudgetRecord) : BudgetRecord :=
  { r with
    status := "active"
    spent_usd := 0
    threshold_state := "normal"
    restoration_timestamp := some entered_time
    last_restoration_timestamp := some entered_time
    budget_period_start := entered_time
    budget_refresh_date := next_refresh_date
    restoration_status := none
    restoration_start_epoch := none }

/-- The ledger effect of one restoration workflow execution
(restoration_workflow.py lines 135-158): ValidateAutomaticRestoration at
time `t_validate`, then the ValidationChoice — an invalid result goes to
the terminal ValidationFailed `Fail` state with no ledger write; a valid
one records the in-progress marker and, after RestoreAccess and
ValidateAccessRestoration, runs ResetBudgetStatus entered at
`t_reset`. -/
def restoration_workflow_run (t_validate t_reset : Int)
    (record : Option BudgetRecord) : Option BudgetRecord :=
  let v := validate_automatic_restoration_request t_validate record
  if v.is_valid then
    match record, v.next_refresh_date with
    | some r, some nrd =>
      some (reset_budget_status t_reset nrd (update_restoration_status t_validate r))
    | _, _ => record
  else record

/-! ## Sample records used to instantiate witnesses and counterexamples -/

/-- A plain active budget record with no spend. -/
def baseRecord : BudgetRecord :=
  { principal_id := "user-1"
    account_type := "bedrock_api_key"
    status := "active"
    threshold_state := "normal"
    budget_limit_usd := 1
    spent_usd := 0
    grace_deadline_epoch := none
    budget_period_start := 0
    budget_refresh_date := 1000
    refresh_period_days := 30
    refresh_count := 0
    last_updated_epoch := 0
    suspension_timestamp := none
    restoration_status := none
    restoration_start_epoch := none
    restoration_timestamp := none
    last_restoration_timestamp := none
    model_spend_breakdown := [] }

/-! ## Theorems -/

/-- If `p` holds at index `i` and at no earlier index, `find?` returns the
element at `i`. -/
theorem find_first {α : Type} (p : α → Bool) :
    ∀ (l : List α) (i : ℕ) (h : i < l.length),
      p (l.get ⟨i, h⟩) = true →
      (∀ j (hj : j < i), p (l.get ⟨j, Nat.lt_trans hj h⟩) = false) →
      l.find? p = some (l.get ⟨i, h⟩) := by
  intro l
  induction l with
  | nil => intro i h; exact absurd h (Nat.not_lt_zero i)
  | cons a t ih =>
    intro i h hp hbefore
    cases i with
    | zero =>
      simp only [List.get] at hp
      simp [List.find?, hp]
    | succ n =>
      have ha : p a = false := hbefore 0 (Nat.succ_pos n)
      simp only [List.find?, ha]
      have hn : n < t.length := Nat.lt_of_succ_lt_succ h
      exact ih n hn hp (fun j hj => hbefore (j + 1) (Nat.succ_lt_succ hj))

/-- C1. The calculator's cost is
`(input/1000)*rateIn + (output/1000)*rateOut + (cacheWrite/1000)*rateIn +
(cacheRead/1000)*(rateIn*0.1)` for the resolved per-1000-token rates; at
`input = output = 1000`, `rateIn = 0.003`, `rateOut = 0.015` the cost is
exactly `0.018`, and adding `cacheRead = 1000` adds exactly `0.0003`. -/
theorem claim_C1 :
    (∀ (rateIn rateOut : ℚ) (i o cw cr : ℕ),
      calculate_cost_with_cache rateIn rateOut i o cw cr =
        ((i : ℚ) / 1000) * rateIn + ((o : ℚ) / 1000) * rateOut
          + ((cw : ℚ) / 1000) * rateIn + ((cr : ℚ) / 1000) * (rateIn * 0.1))
    ∧ calculate_cost_with_cache 0.003 0.015 1000 1000 0 0 = 0.018
    ∧ calculate_cost_with_cache 0.003 0.015 1000 1000 0 1000
        = calculate_cost_with_cache 0.003 0.015 1000 1000 0 0 + 0.0003 := by
  refine ⟨fun rateIn rateOut i o cw cr => rfl, ?_, ?_⟩ <;>
    norm_num [calculate_cost_with_cache]

/-- C6 counterexample. The claim's resolution rule — the LONGEST table
key that is a substring of the model id — disagrees with the code on the
concrete model id below, which contains both the opus key (first in the
table, 37 characters, rates 0.015/0.075) and the haiku key (longer at 38
characters, rates 0.00025/0.00125): the code returns the opus rates. -/
theorem claim_C6_counterexample :
    ¬ (get_fallback_pricing
        "anthropic.claude-3-opus-20240229-v1:0anthropic.claude-3-haiku-20240307-v1:0"
        = longest_match_fallback_pricing
            "anthropic.claude-3-opus-20240229-v1:0anthropic.claude-3-haiku-20240307-v1:0") := by
  have h1 : get_fallback_pricing
      "anthropic.claude-3-opus-20240229-v1:0anthropic.claude-3-haiku-20240307-v1:0"
      = (15/1000, 75/1000) := rfl
  have h2 : longest_match_fallback_pricing
      "anthropic.claude-3-opus-20240229-v1:0anthropic.claude-3-haiku-20240307-v1:0"
      = (25/100000, 125/100000) := rfl
  rw [h1, h2]
  intro h
  exact absurd (congrArg Prod.fst h) (by norm_num)

/-- C6 amended. For every model id whose pricing falls through to the
static table, the calculator never fails: it returns the rates of the
FIRST table key, in the table's fixed (insertion) order, that is a
substring of the model id, and the default rates 0.003/0.015 when no key
matches. -/
theorem claim_C6_amended (model_id : String) :
    ((∀ kv ∈ model_pricing, strContains model_id kv.1 = false) →
      get_fallback_pricing model_id = (3/1000, 15/1000))
    ∧ (∀ (i : ℕ) (h : i < model_pricing.length),
        strContains model_id (model_pricing.get ⟨i, h⟩).1 = true →
        (∀ j (hj : j < i),
          strContains model_id (model_pricing.get ⟨j, Nat.lt_trans hj h⟩).1 = false) →
        get_fallback_pricing model_id = (model_pricing.get ⟨i, h⟩).2) := by
  constructor
  · intro hnone
    have : model_pricing.find? (fun kv => strContains model_id kv.1) = none := by
      rw [List.find?_eq_none]
      intro kv hkv
      simp [hnone kv hkv]
    simp [get_fallback_pricing, this, default_fallback]
  · intro i h hp hbefore
    have := find_first (fun kv => strContains model_id kv.1) model_pricing i h hp hbefore
    simp [get_fallback_pricing, this]

/-- C6 amended, witnessed: an unmatched model id gets the default rates,
and the haiku model id (index 2; indices 0 and 1 do not match) gets the
haiku rates. -/
theorem claim_C6_amended_witness :
    get_fallback_pricing "no-such-model" = (3/1000, 15/1000)
    ∧ get_fallback_pricing "anthropic.claude-3-haiku-20240307-v1:0"
        = (25/100000, 125/100000) := by
  constructor
  · exact (claim_C6_amended "no-such-model").1 (by decide)
  · have := (claim_C6_amended "anthropic.claude-3-haiku-20240307-v1:0").2 2
      (by decide) (by decide)
      (fun j hj => by interval_cases j <;> rfl)
    exact this

/-- A suspended record past its refresh date, carrying a stale grace
deadline, as restoration finds it. -/
def suspendedDue : BudgetRecord :=
  { baseRecord with
    status := "suspended"
    budget_refresh_date := 4000
    grace_deadline_epoch := some 999
    suspension_timestamp := some 40 }

/-- The ledger record the restoration workflow leaves behind for
`suspendedDue` (validation at 5000, reset task entered at 5100). -/
def restoredDue : BudgetRecord :=
  reset_budget_status 5100 (5000 + 30 * secondsPerDay)
    (update_restoration_status 5000 suspendedDue)

/-- C2 counterexample. On the concrete suspended account `suspendedDue`
(refreshCount 0, graceDeadline 999, refreshDate 4000), the
RestorationWorkflow's ledger reset leaves refreshCount at 0 — not
incremented — and leaves the grace deadline in place, contradicting the
claim's postcondition for engine period resets. -/
theorem claim_C2_counterexample :
    restoration_workflow_run 5000 5100 (some suspendedDue) = some restoredDue
    ∧ ¬ (restoredDue.refresh_count = suspendedDue.refresh_count + 1
          ∧ restoredDue.grace_deadline_epoch = none) := by
  refine ⟨rfl, ?_⟩
  intro h
  exact absurd h.1 (by decide)

/-- C2 amended. The RefreshSweep in-place reset of an account sets
spent to 0, advances the window (`refreshDate = periodStart +
refreshPeriodDays`), and increments refreshCount, but touches neither the
status (the sweep only applies it to Active accounts) nor the grace
fields; the RestorationWorkflow's ledger reset sets spent to 0 and status
to Active with `periodStart` the reset task's entry time and
`refreshDate` the date computed at validation time, and it neither
increments refreshCount nor clears the grace fields. -/
theorem claim_C2_amended (r : BudgetRecord) (now entered_time next_refresh : Int) :
    ((budget_refresh_reset now r).spent_usd = 0
      ∧ (budget_refresh_reset now r).refresh_count = r.refresh_count + 1
      ∧ (budget_refresh_reset now r).budget_refresh_date
          = (budget_refresh_reset now r).budget_period_start
              + r.refresh_period_days * secondsPerDay
      ∧ (budget_refresh_reset now r).status = r.status
      ∧ (budget_refresh_reset now r).grace_deadline_epoch = r.grace_deadline_epoch)
    ∧ ((reset_budget_status entered_time next_refresh r).spent_usd = 0
      ∧ (reset_budget_status entered_time next_refresh r).status = "active"
      ∧ (reset_budget_status entered_time next_refresh r).refresh_count = r.refresh_count
      ∧ (reset_budget_status entered_time next_refresh r).grace_deadline_epoch
          = r.grace_deadline_epoch
      ∧ (reset_budget_status entered_time next_refresh r).budget_period_start = entered_time
      ∧ (reset_budget_status entered_time next_refresh r).budget_refresh_date
          = next_refresh) :=
  ⟨⟨rfl, rfl, rfl, rfl, rfl⟩, ⟨rfl, rfl, rfl, rfl, rfl, rfl⟩⟩

/-- An already-suspended record, with the suspension timestamp of its
first suspension. -/
def alreadySuspended : BudgetRecord :=
  { baseRecord with status := "suspended", suspension_timestamp := some 50 }

/-- C3 counterexample. Re-running the suspension workflow's
`UpdateUserStatus` task (entered at time 60) on `alreadySuspended`
(suspended at time 50) does NOT leave the record unchanged: the update is
unconditional and overwrites `suspension_timestamp`. -/
theorem claim_C3_counterexample :
    update_user_status_suspended 60 alreadySuspended ≠ alreadySuspended := by
  intro h
  exact absurd (congrArg BudgetRecord.suspension_timestamp h) (by decide)

/-- C3 amended. Restoration of an already-Active record is rejected by
the validation step and is a no-op on the ledger; but the suspension-side
status write is NOT conditional: on an already-Suspended record it leaves
the status at `suspended` (idempotent in that field alone) while
overwriting `suspension_timestamp` with the new entry time. -/
theorem claim_C3_amended (r : BudgetRecord) (t_validate t_reset entered_time : Int)
    (hactive : r.status = "active") :
    restoration_workflow_run t_validate t_reset (some r) = some r
    ∧ (update_user_status_suspended entered_time r).status = "suspended"
    ∧ (update_user_status_suspended entered_time r).suspension_timestamp
        = some entered_time := by
  refine ⟨?_, rfl, rfl⟩
  simp [restoration_workflow_run, validate_automatic_restoration_request, hactive]

/-- C3 amended, witnessed on the base active record. -/
theorem claim_C3_amended_witness :
    restoration_workflow_run 5000 5100 (some baseRecord) = some baseRecord
    ∧ (update_user_status_suspended 60 baseRecord).status = "suspended"
    ∧ (update_user_status_suspended 60 baseRecord).suspension_timestamp = some 60 :=
  claim_C3_amended baseRecord 5000 5100 60 rfl

/-- The record a concurrent winner creates for principal `p1` just before
the loser's conditional put. -/
def racingWinner : BudgetRecord :=
  basic_budget_record "p1" "model-a" (2/100) 5 30 900

/-- C4 counterexample. A caller that finds no record at its atomic update
(empty table) and then loses the creation race (the winner's record is in
place by the time of its conditional put) does NOT retry the accrual as a
plain increment: `update_user_budget` re-raises the original update error
and writes nothing, so the winner's record still carries only the
winner's spend. -/
theorem claim_C4_counterexample :
    update_user_budget "p1" "model-a" (1/100) 5 30 1000 [] [("p1", racingWinner)]
      = .raisedUpdateError [("p1", racingWinner)]
    ∧ table_get [("p1", racingWinner)] "p1" = some racingWinner :=
  ⟨rfl, rfl⟩

/-- C4 amended. When no account exists for the principal, the accrual
path creates one through the atomic conditional create-if-absent, with
the default budget limit and the accruing cost as the initial spend; but
a caller that loses a concurrent-creation race re-raises the original
update error with no write — the accrual is dropped by that caller, not
retried as an increment. -/
theorem claim_C4_amended (p model_id : String) (cost default_budget : ℚ)
    (days now : Int) (t1 t2 : Table) (h1 : table_get t1 p = none) :
    (table_get t2 p = none →
      update_user_budget p model_id cost default_budget days now t1 t2
        = .created (table_put t2 p
            (basic_budget_record p model_id cost default_budget days now))
      ∧ (basic_budget_record p model_id cost default_budget days now).spent_usd = cost
      ∧ (basic_budget_record p model_id cost default_budget days now).budget_limit_usd
          = default_budget
      ∧ (basic_budget_record p model_id cost default_budget days now).status = "active")
    ∧ (∀ r, table_get t2 p = some r →
        update_user_budget p model_id cost default_budget days now t1 t2
          = .raisedUpdateError t2) := by
  constructor
  · intro h2
    refine ⟨?_, rfl, rfl, rfl⟩
    simp [update_user_budget, h1, h2]
  · intro r h2
    simp [update_user_budget, h1, h2]

/-- C4 amended, witnessed: creation on an empty table, and the re-raised
update error after losing the race to `racingWinner`. -/
theorem claim_C4_amended_witness :
    update_user_budget "p1" "model-a" (1/100) 5 30 1000 [] []
      = .created (table_put [] "p1"
          (basic_budget_record "p1" "model-a" (1/100) 5 30 1000))
    ∧ update_user_budget "p1" "model-a" (1/100) 5 30 1000 [] [("p1", racingWinner)]
        = .raisedUpdateError [("p1", racingWinner)] :=
  ⟨((claim_C4_amended "p1" "model-a" (1/100) 5 30 1000 [] [] rfl).1 rfl).1,
   (claim_C4_amended "p1" "model-a" (1/100) 5 30 1000 [] [("p1", racingWinner)] rfl).2
     racingWinner rfl⟩

/-- An active record that has exceeded its budget (spent 2 against
limit 1) with no grace deadline set. -/
def overBudget : BudgetRecord := { baseRecord with spent_usd := 2 }

/-- C5 counterexample. With no configured grace value available, the
monitor starts the grace period with the code's fallback default of 60
seconds — `graceDeadline = now + 60` — not the claimed 300-second
default. -/
theorem claim_C5_counterexample :
    (monitor_process_item 1000 none overBudget).1.grace_deadline_epoch
      = some (1000 + 60)
    ∧ (monitor_process_item 1000 none overBudget).1.status = "grace_period"
    ∧ ¬ ((monitor_process_item 1000 none overBudget).1.grace_deadline_epoch
          = some (1000 + 300)) := by
  have hcond : ¬ (overBudget.status = "suspended" ∨ overBudget.status = "restricted"
      ∨ overBudget.budget_limit_usd = 0) := by
    push_neg
    refine ⟨by decide, by decide, ?_⟩
    norm_num [overBudget, baseRecord]
  have hratio : overBudget.spent_usd / overBudget.budget_limit_usd * 100 ≥ 100 := by
    norm_num [overBudget, baseRecord]
  have h : monitor_process_item 1000 none overBudget
      = (start_grace_period_update (1000 + 60) overBudget, .graceStarted) := by
    unfold monitor_process_item
    rw [if_neg hcond, if_pos hratio]
    rfl
  rw [h]
  exact ⟨rfl, rfl, by decide⟩

/-- C5 amended. For every scanned account with a positive budget limit
and status outside {suspended, restricted}, if the spend ratio is at
least 100% and no grace deadline is set, the monitor sets
`graceDeadline = now + gracePeriodSeconds` and `status = grace_period`,
where `gracePeriodSeconds` is the runtime-configured grace period and the
fallback default used when no configured value is available is 60
seconds (the deployed SSM parameter's provisioned value is 300, but the
code's lookup default is 60). -/
theorem claim_C5_amended (now : Int) (cfg : Option Int) (r : BudgetRecord)
    (hs1 : ¬ r.status = "suspended") (hs2 : ¬ r.status = "restricted")
    (hlim : 0 < r.budget_limit_usd)
    (hratio : r.spent_usd / r.budget_limit_usd * 100 ≥ 100)
    (hgrace : r.grace_deadline_epoch = none) :
    monitor_process_item now cfg r
      = (start_grace_period_update (now + get_parameter cfg 60) r, .graceStarted)
    ∧ (monitor_process_item now cfg r).1.status = "grace_period"
    ∧ (monitor_process_item now cfg r).1.grace_deadline_epoch
        = some (now + get_parameter cfg 60)
    ∧ get_parameter (none : Option Int) 60 = 60 := by
  have hc1 : ¬ (r.status = "suspended" ∨ r.status = "restricted"
      ∨ r.budget_limit_usd = 0) := by
    push_neg
    exact ⟨hs1, hs2, ne_of_gt hlim⟩
  have h : monitor_process_item now cfg r
      = (start_grace_period_update (now + get_parameter cfg 60) r, .graceStarted) := by
    unfold monitor_process_item
    rw [if_neg hc1, if_pos hratio, hgrace]
  exact ⟨h, by rw [h]; rfl, by rw [h]; rfl, rfl⟩

/-- C5 amended, witnessed on `overBudget` with a configured 300-second
grace period. -/
theorem claim_C5_amended_witness :
    monitor_process_item 1000 (some 300) overBudget
      = (start_grace_period_update (1000 + get_parameter (some 300) 60) overBudget,
          .graceStarted)
    ∧ (monitor_process_item 1000 (some 300) overBudget).1.status = "grace_period"
    ∧ (monitor_process_item 1000 (some 300) overBudget).1.grace_deadline_epoch
        = some (1000 + get_parameter (some 300) 60)
    ∧ get_parameter (none : Option Int) 60 = 60 :=
  claim_C5_amended 1000 (some 300) overBudget (by decide) (by decide)
    (by norm_num [overBudget, baseRecord])
    (by norm_num [overBudget, baseRecord]) rfl

/-- C7. One suspension-workflow execution visits exactly
SendGraceNotification, GracePeriodWait, SendFinalWarning,
ApplyFullSuspension, UpdateUserStatus, SuspensionSuccess in that order;
the wait's duration is the triggering payload's `grace_period_seconds`,
independent of whatever is configured at execution time; and a failing
ApplyFullSuspension (RevokeAccess) lands in the terminal
SuspensionFailed state, never reaching UpdateUserStatus
(MarkSuspended). -/
theorem claim_C7 :
    suspension_trace false
      = [.sendGraceNotification, .gracePeriodWait, .sendFinalWarning,
         .applyFullSuspension, .updateUserStatus, .suspensionSuccess]
    ∧ suspension_trace true
      = [.sendGraceNotification, .gracePeriodWait, .sendFinalWarning,
         .applyFullSuspension, .suspensionFailed]
    ∧ SuspensionState.updateUserStatus ∉ suspension_trace true
    ∧ (suspension_trace true).getLast? = some .suspensionFailed
    ∧ suspension_next true .suspensionFailed = none
    ∧ ∀ (input : SuspensionInput) (c1 c2 : Option Int),
        grace_wait_seconds input c1 = input.grace_period_seconds
        ∧ grace_wait_seconds input c1 = grace_wait_seconds input c2 := by
  refine ⟨by decide, by decide, by decide, by decide, rfl, ?_⟩
  exact fun input c1 c2 => ⟨rfl, rfl⟩

/-- Each accrual step adds exactly its cost to `spent_usd`. -/
theorem run_accruals_spent (now : Int) :
    ∀ (calls : List (String × ℚ)) (r : BudgetRecord),
      (run_accruals now calls r).spent_usd
        = r.spent_usd + (calls.map Prod.snd).sum := by
  intro calls
  induction calls with
  | nil => intro r; simp [run_accruals]
  | cons c t ih =>
    intro r
    have : run_accruals now (c :: t) r
        = run_accruals now t (accrue_spend c.1 c.2 now r) := rfl
    rw [this, ih]
    simp [accrue_spend]
    ring

/-- C8. Any interleaving of N concurrent accrual calls for the same
existing principal is some order of their N atomic increment steps (the
source's single `update_item` never reads-then-writes); every order
yields `spent = initial + sum of the N costs`, so no update observes and
overwrites a stale value and no cost is lost. -/
theorem claim_C8 (now : Int) (r : BudgetRecord)
    (calls calls' : List (String × ℚ)) (hperm : calls.Perm calls') :
    (run_accruals now calls r).spent_usd
      = r.spent_usd + (calls.map Prod.snd).sum
    ∧ (run_accruals now calls r).spent_usd
        = (run_accruals now calls' r).spent_usd := by
  refine ⟨run_accruals_spent now calls r, ?_⟩
  rw [run_accruals_spent, run_accruals_spent,
      List.Perm.sum_eq (hperm.map Prod.snd)]

/-- C8, witnessed: two concurrent calls of costs 1 and 2 on the base
record, in both interleavings. -/
theorem claim_C8_witness :
    (run_accruals 7 [("model-a", 1), ("model-b", 2)] baseRecord).spent_usd
      = baseRecord.spent_usd
          + ([(("model-a" : String), (1 : ℚ)), ("model-b", 2)].map Prod.snd).sum
    ∧ (run_accruals 7 [("model-a", 1), ("model-b", 2)] baseRecord).spent_usd
        = (run_accruals 7 [("model-b", 2), ("model-a", 1)] baseRecord).spent_usd :=
  claim_C8 7 baseRecord [("model-a", 1), ("model-b", 2)]
    [("model-b", 2), ("model-a", 1)] (List.Perm.swap ("model-b", 2) ("model-a", 1) [])

/-- C9. A refresh-sweep run leaves any account whose status is neither
`suspended` nor `active` (for example `grace_period`) completely
unchanged and emits no restoration trigger, whatever its refresh date. -/
theorem claim_C9 (now : Int) (r : BudgetRecord)
    (h1 : ¬ r.status = "suspended") (h2 : ¬ r.status = "active") :
    budget_refresh_process_item now r = (r, .noAction) := by
  unfold budget_refresh_process_item
  by_cases hd : now ≥ r.budget_refresh_date
  · rw [if_pos hd, if_neg h1, if_neg h2]
  · rw [if_neg hd]

/-- A grace-period account whose refresh date is already in the past. -/
def gracePeriodDue : BudgetRecord :=
  { baseRecord with
    status := "grace_period"
    budget_refresh_date := 400
    grace_deadline_epoch := some 450 }

/-- C9, witnessed on a grace-period account past its refresh date. -/
theorem claim_C9_witness :
    budget_refresh_process_item 5000 gracePeriodDue = (gracePeriodDue, .noAction) :=
  claim_C9 5000 gracePeriodDue (by decide) (by decide)

/-- C10. Whenever starting a grace period fails — any raise that can
reach `start_grace_period`'s except handler, which the source confines
to the configuration lookup and the ledger update, since the event and
metric publications swallow their own exceptions — the monitor
immediately triggers the SuspensionWorkflow with reason
`grace_period_setup_failed` instead of leaving the account untreated,
and the account record is left untouched: in particular no graceDeadline
is recorded on it. -/
theorem claim_C10 (now : Int) (cfg : Option Int) (s : GraceSetupStep)
    (r : BudgetRecord) (hgrace : r.grace_deadline_epoch = none) :
    (start_grace_period_run now cfg (some s) r).2
      = some "grace_period_setup_failed"
    ∧ (start_grace_period_run now cfg (some s) r).1 = r
    ∧ (start_grace_period_run now cfg (some s) r).1.grace_deadline_epoch = none := by
  cases s <;> exact ⟨rfl, rfl, hgrace⟩

/-- C10, witnessed: a failure at the ledger-update step on the base
record (no grace deadline set, as the monitor guarantees on this path)
triggers the workflow with the setup-failed reason, leaves the record
untouched, and records no deadline. -/
theorem claim_C10_witness :
    (start_grace_period_run 1000 (some 300) (some .ledgerUpdate) baseRecord).2
      = some "grace_period_setup_failed"
    ∧ (start_grace_period_run 1000 (some 300) (some .ledgerUpdate) baseRecord).1
        = baseRecord
    ∧ (start_grace_period_run 1000 (some 300)
        (some .ledgerUpdate) baseRecord).1.grace_deadline_epoch = none :=
  claim_C10 1000 (some 300) .ledgerUpdate baseRecord rfl

end BedrockBudgeteer
